import Mathlib

/-!
Verification development for scriptedmapformat.cpp (Tiled): a shallow
embedding of the ScriptedMapFormat adapter, its descriptor validation,
the ScriptFile accessor and the read/write pipelines, with proofs of
the specified properties.

External collaborators (the QJS script engine, the host map model, the
file system and the SaveFile atomic-commit primitive) are modelled as
explicit parameters: a script invocation is an oracle function, the
file system is a partial map from path to committed content, and the
staging outcome is an oracle record.
-/

namespace Tiled

/-- Host map model. The core only consumes its clone contract, so the model
keeps an opaque identifier. -/
structure Map where
  mapId : Nat
  deriving DecidableEq

/-- Models Map::clone: a fresh host-owned copy with the same contents
(value-level identity). -/
def Map.clone (m : Map) : Map := m

/-- Script-engine values, restricted to the classifications the source code
distinguishes: strings, ArrayBuffer binary data, numbers, callables, error
objects, QObject wrappers for EditableMap and ScriptFile, and undefined. -/
inductive JSValue where
  | str (s : String)
  | binary (b : List Nat)
  | num (n : Int)
  | jsError (msg : String)
  | callable
  | mapView (m : Map)
  | fileHandle (path : String)
  | undefinedV
  deriving DecidableEq

/-- Models QJSValue::isString. -/
def JSValue.isString : JSValue → Bool
  | .str _ => true
  | _ => false

/-- Models QJSValue::isCallable. -/
def JSValue.isCallable : JSValue → Bool
  | .callable => true
  | _ => false

/-- Models QJSValue::toString for the cases the code exercises: the payload
for strings, the message for error values. The remaining conversions are
performed by the script engine (an external collaborator); the model picks
fixed representations for them. -/
def JSValue.toString : JSValue → String
  | .str s => s
  | .jsError m => m
  | .num n => ToString.toString n
  | .binary _ => "[object ArrayBuffer]"
  | .callable => "function"
  | .mapView _ => "[object Object]"
  | .fileHandle _ => "[object Object]"
  | .undefinedV => "undefined"

/-- Models ScriptManager::checkError applied to a call result: true exactly
when the invocation raised, i.e. produced an error value. -/
def checkError : JSValue → Bool
  | .jsError _ => true
  | _ => false

/-- Models qjsvalue_cast to QByteArray: only an ArrayBuffer converts to a
non-null byte array; every other value yields a null one (none here). -/
def castByteArray : JSValue → Option (List Nat)
  | .binary b => some b
  | _ => none

/-- Models qobject_cast to EditableMap applied to resultValue.toQObject():
succeeds exactly on a map-view wrapper. -/
def JSValue.toEditableMap : JSValue → Option Map
  | .mapView m => some m
  | _ => none

/-- Script-owned format descriptor: the four properties the code reads.
Lookup by property name models QJSValue::property. -/
structure JSObject where
  nameProp : JSValue
  extensionProp : JSValue
  readProp : JSValue
  writeProp : JSValue
  deriving DecidableEq

/-- Models QJSValue::property on the descriptor object. -/
def JSObject.property (o : JSObject) (name : String) : JSValue :=
  if name = "name" then o.nameProp
  else if name = "extension" then o.extensionProp
  else if name = "read" then o.readProp
  else if name = "write" then o.writeProp
  else JSValue.undefinedV

/-- Content of a committed file. Text mode and binary mode differ only in
the platform text-encoding step, which the spec treats as an external
collaborator, so content keeps this classification. -/
inductive FileData where
  | textData (s : String)
  | binData (b : List Nat)
  deriving DecidableEq

/-- Text read-back (QTextStream::readAll). Decoding of a binary-written
file is approximated by a character-per-byte decoding. -/
def FileData.asText : FileData → String
  | .textData s => s
  | .binData b => String.mk (b.map Char.ofNat)

/-- Binary read-back (QIODevice::readAll). Encoding of a text-written file
is approximated by a byte-per-character encoding. -/
def FileData.asBinary : FileData → List Nat
  | .binData b => b
  | .textData s => s.data.map Char.toNat

/-- File system visible at destination paths: a partial map from path to
committed content. -/
def FS : Type := String → Option FileData

/-- Result of an atomic commit of content d over path. -/
def FS.set (fs : FS) (path : String) (d : FileData) : FS :=
  fun q => if q = path then some d else fs q

/-- Minimal read-only file accessor handed to read scripts: a bound path
and a mutable error string. -/
structure ScriptFile where
  mFilePath : String
  mError : String
  deriving DecidableEq

/-- Models ScriptFile::readAsText: open-read-close per call; on open
failure the platform error string (parameter errStr, file.errorString())
is recorded and the empty string returned. -/
def ScriptFile.readAsText (f : ScriptFile) (fs : FS) (errStr : String) :
    String × ScriptFile :=
  match fs f.mFilePath with
  | some d => (d.asText, f)
  | none => ("", { f with mError := errStr })

/-- Models ScriptFile::readAsBinary, same contract without text decoding. -/
def ScriptFile.readAsBinary (f : ScriptFile) (fs : FS) (errStr : String) :
    List Nat × ScriptFile :=
  match fs f.mFilePath with
  | some d => (d.asBinary, f)
  | none => ([], { f with mError := errStr })

/-- The format adapter state: short name, the (non-owned) descriptor, and
the last error string. -/
structure ScriptedMapFormat where
  mShortName : String
  mObject : JSObject
  mError : String
  deriving DecidableEq

/-- Models the constructor: stores the short name and descriptor; the error
string starts out default-constructed (empty). -/
def mkScriptedMapFormat (shortName : String) (object : JSObject) :
    ScriptedMapFormat :=
  { mShortName := shortName, mObject := object, mError := "" }

/-- The Read and Write bits of FileFormat::Capabilities. -/
structure Capabilities where
  canRead : Bool
  canWrite : Bool
  deriving DecidableEq

/-- Models ScriptedMapFormat::capabilities, a const method: flags are
recomputed from the descriptor and the adapter state is untouched. -/
def ScriptedMapFormat.capabilities (fmt : ScriptedMapFormat) :
    Capabilities × ScriptedMapFormat :=
  ({ canRead := (fmt.mObject.property "read").isCallable,
     canWrite := (fmt.mObject.property "write").isCallable }, fmt)

/-- Models ScriptedMapFormat::nameFilter, a const method. -/
def ScriptedMapFormat.nameFilter (fmt : ScriptedMapFormat) :
    String × ScriptedMapFormat :=
  let name := (fmt.mObject.property "name").toString
  let extension := (fmt.mObject.property "extension").toString
  (name ++ " (*." ++ extension ++ ")", fmt)

/-- Models QString::endsWith with its default case sensitivity: an exact
suffix comparison of the character sequences. -/
def qEndsWith (s suffixStr : String) : Bool :=
  suffixStr.data.isSuffixOf s.data

/-- Models ScriptedMapFormat::supportsFile, a const method: prepends a dot
to the extension property and tests it as a suffix of the file name. -/
def ScriptedMapFormat.supportsFile (fmt : ScriptedMapFormat)
    (fileName : String) : Bool × ScriptedMapFormat :=
  let extension := (fmt.mObject.property "extension").toString
  (qEndsWith fileName ("." ++ extension), fmt)

/-- A script invocation through the engine (readProperty.call(...) /
writeProperty.call(...)): the engine is an external collaborator, so the
invocation is an oracle from callee and argument list to result value. A
raised script error is represented by an error value, matching checkError. -/
def CallOracle : Type := JSValue → List JSValue → JSValue

/-- Argument list built by read(): the new QObject wrapper of the
ScriptFile bound to the file name. -/
def readArguments (fileName : String) : List JSValue :=
  [JSValue.fileHandle fileName]

/-- Models ScriptedMapFormat::read: clear the error, invoke the read
property with a ScriptFile wrapper, capture a raised error, otherwise
clone out a returned EditableMap, and return nothing for any other value. -/
def ScriptedMapFormat.read (fmt : ScriptedMapFormat) (call : CallOracle)
    (fileName : String) : Option Map × ScriptedMapFormat :=
  let cleared := { fmt with mError := "" }
  let readProperty := fmt.mObject.property "read"
  let resultValue := call readProperty (readArguments fileName)
  if checkError resultValue then
    (none, { cleared with mError := resultValue.toString })
  else
    match resultValue.toEditableMap with
    | some m => (some m.clone, cleared)
    | none => (none, cleared)

/-- Outcome oracle for the SaveFile staging primitive (an external
collaborator): whether open succeeds, whether the device reports an error
after the staged write, whether the atomic commit succeeds, and the
platform I/O error string (file.errorString()) reported on failure. -/
structure SaveEnv where
  openOk : Bool
  deviceError : Bool
  commitOk : Bool
  ioErrorString : String
  deriving DecidableEq

/-- The message set when the write script returns neither a string nor an
ArrayBuffer. -/
def invalidWriteReturnMessage : String :=
  "Invalid return value for \x27write\x27 (string or ArrayBuffer expected)"

/-- The message set when the staging file cannot be opened. -/
def openFailMessage : String := "Could not open file for writing."

/-- Argument list built by write(): the EditableMap wrapper of the map, the
file name, and the options bitmask cast to an integer. -/
def writeArguments (map : Map) (fileName : String) (options : Int) :
    List JSValue :=
  [JSValue.mapView map, JSValue.str fileName, JSValue.num options]

/-- Models ScriptedMapFormat::write: clear the error, invoke the write
property, capture a raised error; classify the result as string or
ArrayBuffer, rejecting anything else; then stage the content through
SaveFile (text mode for strings) and atomically commit it over the
destination. Every failure leaves the destination untouched. -/
def ScriptedMapFormat.write (fmt : ScriptedMapFormat) (call : CallOracle)
    (map : Map) (fileName : String) (options : Int) (env : SaveEnv)
    (fs : FS) : Bool × ScriptedMapFormat × FS :=
  let cleared := { fmt with mError := "" }
  let writeProperty := fmt.mObject.property "write"
  let resultValue := call writeProperty (writeArguments map fileName options)
  if checkError resultValue then
    (false, { cleared with mError := resultValue.toString }, fs)
  else
    let isStringR := resultValue.isString
    let bytes := castByteArray resultValue
    if !isStringR && bytes.isNone then
      (false, { cleared with mError := invalidWriteReturnMessage }, fs)
    else if !env.openOk then
      (false, { cleared with mError := openFailMessage }, fs)
    else
      let staged := if isStringR then FileData.textData resultValue.toString
                    else FileData.binData (bytes.getD [])
      if env.deviceError || !env.commitOk then
        (false, { cleared with mError := env.ioErrorString }, fs)
      else
        (true, cleared, fs.set fileName staged)

/-- The message raised for a descriptor without a string name. -/
def invalidNameMessage : String :=
  "Invalid map format object (requires string \x27name\x27 property)"

/-- The message raised for a descriptor without a string extension. -/
def invalidExtensionMessage : String :=
  "Invalid map format object (requires string \x27extension\x27 property)"

/-- The message raised for a descriptor with neither function property. -/
def missingFunctionMessage : String :=
  "Invalid map format object (requires a \x27write\x27 and/or \x27read\x27 function property)"

/-- Models ScriptedMapFormat::validateMapFormatObject; the Boolean result
is paired with the message, if any, raised through
ScriptManager::throwError (the error-reporting channel). -/
def validateMapFormatObject (value : JSObject) : Bool × Option String :=
  let nameProperty := value.property "name"
  let extensionProperty := value.property "extension"
  let writeProperty := value.property "write"
  let readProperty := value.property "read"
  if !nameProperty.isString then
    (false, some invalidNameMessage)
  else if !extensionProperty.isString then
    (false, some invalidExtensionMessage)
  else if !writeProperty.isCallable && !readProperty.isCallable then
    (false, some missingFunctionMessage)
  else
    (true, none)

/-- Modelled from the spec: the registration call site lives outside this
file; per the spec, registration is all-or-nothing and a candidate failing
validateMapFormatObject is never added to the registry. -/
def registerMapFormat (registry : List JSObject) (value : JSObject) :
    List JSObject :=
  if (validateMapFormatObject value).1 then registry ++ [value] else registry

/-- A well-formed sample descriptor used to instantiate the theorems. -/
def sampleDescriptor : JSObject :=
  { nameProp := JSValue.str "Custom", extensionProp := JSValue.str "custom",
    readProp := JSValue.callable, writeProp := JSValue.callable }

/-- Adapter wrapping the sample descriptor. -/
def sampleFormat : ScriptedMapFormat := mkScriptedMapFormat "custom" sampleDescriptor

/-- A descriptor exposing only a callable read. -/
def readOnlyDescriptor : JSObject :=
  { nameProp := JSValue.str "ReadOnly", extensionProp := JSValue.str "ro",
    readProp := JSValue.callable, writeProp := JSValue.undefinedV }

/-- Adapter wrapping the read-only descriptor. -/
def readOnlyFormat : ScriptedMapFormat := mkScriptedMapFormat "ro" readOnlyDescriptor

/-- A descriptor violating every validation requirement. -/
def badDescriptor : JSObject :=
  { nameProp := JSValue.num 1, extensionProp := JSValue.num 2,
    readProp := JSValue.undefinedV, writeProp := JSValue.undefinedV }

/-- A second copy of the fully invalid descriptor, for the ordering claim. -/
def allBadDescriptor : JSObject :=
  { nameProp := JSValue.binary [], extensionProp := JSValue.num 2,
    readProp := JSValue.undefinedV, writeProp := JSValue.undefinedV }

/-- The empty file system. -/
def noFS : FS := fun _ => none

/-- A staging environment in which every I/O step succeeds. -/
def okEnv : SaveEnv :=
  { openOk := true, deviceError := false, commitOk := true, ioErrorString := "" }

/-- A staging environment whose commit step fails. -/
def commitFailEnv : SaveEnv :=
  { openOk := true, deviceError := false, commitOk := false,
    ioErrorString := "No space left on device" }

theorem isSuffixOf_iff_suffix_chars (l₁ l₂ : List Char) :
    l₁.isSuffixOf l₂ = true ↔ l₁ <:+ l₂ := by
  simp [List.isSuffixOf]

/-- C3: for every path, if invoking the descriptor's read callable raises a
script-level error with message M, then read() returns no model and the
adapter's lastError equals M. -/
theorem read_script_error_captured (fmt : ScriptedMapFormat)
    (call : CallOracle) (fileName M : String)
    (h : call (fmt.mObject.property "read") (readArguments fileName) =
      JSValue.jsError M) :
    (fmt.read call fileName).1 = none ∧
    (fmt.read call fileName).2.mError = M := by
  simp [ScriptedMapFormat.read, h, checkError, JSValue.toString]

/-- Witness for C3 at a concrete raising script. -/
theorem read_script_error_captured_instance :
    (sampleFormat.read (fun _ _ => JSValue.jsError "boom") "map.custom").1 = none ∧
    (sampleFormat.read (fun _ _ => JSValue.jsError "boom") "map.custom").2.mError = "boom" :=
  read_script_error_captured sampleFormat (fun _ _ => JSValue.jsError "boom")
    "map.custom" "boom" rfl

/-- C4: for every path, if the read callable returns without raising and its
value is not a MapViewHandle (EditableMap), read() returns no model and
leaves lastError empty. -/
theorem read_invalid_return_no_error (fmt : ScriptedMapFormat)
    (call : CallOracle) (fileName : String) (v : JSValue)
    (h : call (fmt.mObject.property "read") (readArguments fileName) = v)
    (hE : checkError v = false) (hM : v.toEditableMap = none) :
    (fmt.read call fileName).1 = none ∧
    (fmt.read call fileName).2.mError = "" := by
  simp [ScriptedMapFormat.read, h, hE, hM]

/-- Witness for C4 at a script returning a number. -/
theorem read_invalid_return_no_error_instance :
    (sampleFormat.read (fun _ _ => JSValue.num 3) "map.custom").1 = none ∧
    (sampleFormat.read (fun _ _ => JSValue.num 3) "map.custom").2.mError = "" :=
  read_invalid_return_no_error sampleFormat (fun _ _ => JSValue.num 3)
    "map.custom" (JSValue.num 3) rfl rfl rfl

/-- C2: for every map, path and options, a write script result that is
neither a string nor binary data makes write() return false with the
invalid-return-value message, leaving the destination untouched. -/
theorem write_invalid_return_value (fmt : ScriptedMapFormat)
    (call : CallOracle) (map : Map) (fileName : String) (options : Int)
    (env : SaveEnv) (fs : FS) (v : JSValue)
    (h : call (fmt.mObject.property "write") (writeArguments map fileName options) = v)
    (hE : checkError v = false) (hS : v.isString = false)
    (hB : castByteArray v = none) :
    fmt.write call map fileName options env fs =
      (false, { fmt with mError := invalidWriteReturnMessage }, fs) := by
  simp [ScriptedMapFormat.write, h, hE, hS, hB]

/-- Witness for C2 at a script returning the number 7. -/
theorem write_invalid_return_value_instance :
    sampleFormat.write (fun _ _ => JSValue.num 7) (Map.mk 0) "out.custom" 0
        okEnv noFS =
      (false, { sampleFormat with mError := invalidWriteReturnMessage }, noFS) :=
  write_invalid_return_value sampleFormat (fun _ _ => JSValue.num 7) (Map.mk 0)
    "out.custom" 0 okEnv noFS (JSValue.num 7) rfl rfl rfl rfl

/-- C1: for every map, path and options, if the staged write or the final
commit fails then write() returns false, captures the I/O error string into
lastError, and leaves the destination file exactly as it was; write()
returns true only after the atomic commit succeeds. -/
theorem write_commit_atomicity (fmt : ScriptedMapFormat) (call : CallOracle)
    (map : Map) (fileName : String) (options : Int) (env : SaveEnv) (fs : FS) :
    (checkError (call (fmt.mObject.property "write")
        (writeArguments map fileName options)) = false →
      ((call (fmt.mObject.property "write")
          (writeArguments map fileName options)).isString = true ∨
       (castByteArray (call (fmt.mObject.property "write")
          (writeArguments map fileName options))).isSome = true) →
      env.openOk = true →
      (env.deviceError = true ∨ env.commitOk = false) →
      ((fmt.write call map fileName options env fs).1 = false ∧
       (fmt.write call map fileName options env fs).2.1.mError = env.ioErrorString ∧
       (fmt.write call map fileName options env fs).2.2 = fs)) ∧
    ((fmt.write call map fileName options env fs).1 = true →
      env.openOk = true ∧ env.deviceError = false ∧ env.commitOk = true) := by
  constructor
  · intro hE hKind hOpen hFail
    cases hres : call (fmt.mObject.property "write") (writeArguments map fileName options) with
    | str s =>
        simp only [ScriptedMapFormat.write, hres]
        rcases hFail with hF | hF <;>
          simp [checkError, JSValue.isString, castByteArray, hOpen, hF]
    | binary b =>
        simp only [ScriptedMapFormat.write, hres]
        rcases hFail with hF | hF <;>
          simp [checkError, JSValue.isString, castByteArray, hOpen, hF]
    | num n =>
        rw [hres] at hKind
        simp [JSValue.isString, castByteArray] at hKind
    | jsError m =>
        rw [hres] at hE
        simp [checkError] at hE
    | callable =>
        rw [hres] at hKind
        simp [JSValue.isString, castByteArray] at hKind
    | mapView m =>
        rw [hres] at hKind
        simp [JSValue.isString, castByteArray] at hKind
    | fileHandle q =>
        rw [hres] at hKind
        simp [JSValue.isString, castByteArray] at hKind
    | undefinedV =>
        rw [hres] at hKind
        simp [JSValue.isString, castByteArray] at hKind
  · intro ht
    cases hres : call (fmt.mObject.property "write") (writeArguments map fileName options) with
    | str s =>
        simp only [ScriptedMapFormat.write, hres] at ht
        simp only [checkError, JSValue.isString, castByteArray] at ht
        cases hOpen : env.openOk
        · simp [hOpen] at ht
        · cases hDev : env.deviceError
          · cases hCom : env.commitOk
            · simp [hOpen, hDev, hCom] at ht
            · exact ⟨rfl, rfl, rfl⟩
          · simp [hOpen, hDev] at ht
    | binary b =>
        simp only [ScriptedMapFormat.write, hres] at ht
        simp only [checkError, JSValue.isString, castByteArray] at ht
        cases hOpen : env.openOk
        · simp [hOpen] at ht
        · cases hDev : env.deviceError
          · cases hCom : env.commitOk
            · simp [hOpen, hDev, hCom] at ht
            · exact ⟨rfl, rfl, rfl⟩
          · simp [hOpen, hDev] at ht
    | num n =>
        simp only [ScriptedMapFormat.write, hres] at ht
        simp [checkError, JSValue.isString, castByteArray] at ht
    | jsError m =>
        simp only [ScriptedMapFormat.write, hres] at ht
        simp [checkError] at ht
    | callable =>
        simp only [ScriptedMapFormat.write, hres] at ht
        simp [checkError, JSValue.isString, castByteArray] at ht
    | mapView m =>
        simp only [ScriptedMapFormat.write, hres] at ht
        simp [checkError, JSValue.isString, castByteArray] at ht
    | fileHandle q =>
        simp only [ScriptedMapFormat.write, hres] at ht
        simp [checkError, JSValue.isString, castByteArray] at ht
    | undefinedV =>
        simp only [ScriptedMapFormat.write, hres] at ht
        simp [checkError, JSValue.isString, castByteArray] at ht

/-- Witness for C1 at a concrete commit failure. -/
theorem write_commit_atomicity_instance :
    (sampleFormat.write (fun _ _ => JSValue.str "ABC") (Map.mk 0) "out.custom" 0
        commitFailEnv noFS).1 = false ∧
    (sampleFormat.write (fun _ _ => JSValue.str "ABC") (Map.mk 0) "out.custom" 0
        commitFailEnv noFS).2.1.mError = commitFailEnv.ioErrorString ∧
    (sampleFormat.write (fun _ _ => JSValue.str "ABC") (Map.mk 0) "out.custom" 0
        commitFailEnv noFS).2.2 = noFS :=
  (write_commit_atomicity sampleFormat (fun _ _ => JSValue.str "ABC") (Map.mk 0)
      "out.custom" 0 commitFailEnv noFS).1 rfl (Or.inl rfl) rfl (Or.inr rfl)

/-- C5: a successful write of a string s commits text content that reads
back via readAsText as s, and a successful write of binary data b commits
bytes that read back via readAsBinary as b. -/
theorem write_read_round_trip (fmt : ScriptedMapFormat) (call : CallOracle)
    (map : Map) (fileName : String) (options : Int) (env : SaveEnv) (fs : FS)
    (s : String) (b : List Nat) (errStr : String)
    (hOpen : env.openOk = true) (hDev : env.deviceError = false)
    (hCom : env.commitOk = true) :
    (call (fmt.mObject.property "write") (writeArguments map fileName options) =
        JSValue.str s →
      (fmt.write call map fileName options env fs).1 = true ∧
      (ScriptFile.readAsText { mFilePath := fileName, mError := "" }
          (fmt.write call map fileName options env fs).2.2 errStr).1 = s) ∧
    (call (fmt.mObject.property "write") (writeArguments map fileName options) =
        JSValue.binary b →
      (fmt.write call map fileName options env fs).1 = true ∧
      (ScriptFile.readAsBinary { mFilePath := fileName, mError := "" }
          (fmt.write call map fileName options env fs).2.2 errStr).1 = b) := by
  constructor
  · intro h
    simp [ScriptedMapFormat.write, h, checkError, JSValue.isString,
          castByteArray, hOpen, hDev, hCom, ScriptFile.readAsText, FS.set,
          JSValue.toString, FileData.asText]
  · intro h
    simp [ScriptedMapFormat.write, h, checkError, JSValue.isString,
          castByteArray, hOpen, hDev, hCom, ScriptFile.readAsBinary, FS.set,
          FileData.asBinary]

/-- Witness for C5 at the string ABC and the bytes 0, 255, 16. -/
theorem write_read_round_trip_instance :
    ((sampleFormat.write (fun _ _ => JSValue.str "ABC") (Map.mk 0) "out.custom" 0
        okEnv noFS).1 = true ∧
     (ScriptFile.readAsText { mFilePath := "out.custom", mError := "" }
        (sampleFormat.write (fun _ _ => JSValue.str "ABC") (Map.mk 0) "out.custom" 0
          okEnv noFS).2.2 "").1 = "ABC") ∧
    ((sampleFormat.write (fun _ _ => JSValue.binary [0, 255, 16]) (Map.mk 0)
        "out.custom" 0 okEnv noFS).1 = true ∧
     (ScriptFile.readAsBinary { mFilePath := "out.custom", mError := "" }
        (sampleFormat.write (fun _ _ => JSValue.binary [0, 255, 16]) (Map.mk 0)
          "out.custom" 0 okEnv noFS).2.2 "").1 = [0, 255, 16]) :=
  ⟨(write_read_round_trip sampleFormat (fun _ _ => JSValue.str "ABC") (Map.mk 0)
      "out.custom" 0 okEnv noFS "ABC" [0, 255, 16] "" rfl rfl rfl).1 rfl,
   (write_read_round_trip sampleFormat (fun _ _ => JSValue.binary [0, 255, 16]) (Map.mk 0)
      "out.custom" 0 okEnv noFS "ABC" [0, 255, 16] "" rfl rfl rfl).2 rfl⟩

/-- C6: validate accepts a descriptor iff its name is a string, its
extension is a string, and at least one of read and write is callable; on
any violation it raises a descriptive error through the error-reporting
channel, returns false, and the candidate is never registered. -/
theorem validate_shape_iff (value : JSObject) (registry : List JSObject) :
    ((validateMapFormatObject value).1 = true ↔
      ((value.property "name").isString = true ∧
       (value.property "extension").isString = true ∧
       ((value.property "read").isCallable = true ∨
        (value.property "write").isCallable = true))) ∧
    ((validateMapFormatObject value).1 = false →
      (validateMapFormatObject value).2.isSome = true ∧
      registerMapFormat registry value = registry) := by
  cases hn : (value.property "name").isString <;>
  cases he : (value.property "extension").isString <;>
  cases hw : (value.property "write").isCallable <;>
  cases hr : (value.property "read").isCallable <;>
  simp [validateMapFormatObject, registerMapFormat, hn, he, hw, hr]

/-- Witness for C6 at a descriptor with a numeric name. -/
theorem validate_shape_iff_instance :
    (validateMapFormatObject badDescriptor).2.isSome = true ∧
    registerMapFormat [] badDescriptor = [] :=
  (validate_shape_iff badDescriptor []).2 rfl

/-- C7: capabilities contains Read iff the read property is currently
callable and Write iff the write property is currently callable; a
descriptor with only a callable read yields exactly the Read flag; the
flags are recomputed from the current descriptor on each query. -/
theorem capabilities_from_descriptor (fmt fmt2 : ScriptedMapFormat) :
    ((fmt.capabilities).1.canRead = (fmt.mObject.property "read").isCallable) ∧
    ((fmt.capabilities).1.canWrite = (fmt.mObject.property "write").isCallable) ∧
    ((fmt.mObject.property "read").isCallable = true →
      (fmt.mObject.property "write").isCallable = false →
      (fmt.capabilities).1 = { canRead := true, canWrite := false }) ∧
    (fmt.mObject = fmt2.mObject → (fmt.capabilities).1 = (fmt2.capabilities).1) := by
  refine ⟨rfl, rfl, ?_, ?_⟩
  · intro h1 h2
    simp [ScriptedMapFormat.capabilities, h1, h2]
  · intro h
    simp [ScriptedMapFormat.capabilities, h]

/-- Witness for C7 at the read-only descriptor. -/
theorem capabilities_from_descriptor_instance :
    (readOnlyFormat.capabilities).1 = { canRead := true, canWrite := false } :=
  (capabilities_from_descriptor readOnlyFormat readOnlyFormat).2.2.1 rfl rfl

/-- C8: when the extension property is the string ext, supportsFile is true
iff the path, case-sensitively, ends with a dot followed by ext; in
particular for ext custom it accepts map.custom and rejects map.customx
and map.other. -/
theorem supportsFile_dot_extension_suffix (fmt : ScriptedMapFormat)
    (p ext : String)
    (h : fmt.mObject.property "extension" = JSValue.str ext) :
    ((fmt.supportsFile p).1 = true ↔ ("." ++ ext).data <:+ p.data) ∧
    (ext = "custom" →
      ((fmt.supportsFile "map.custom").1 = true ∧
       (fmt.supportsFile "map.customx").1 = false ∧
       (fmt.supportsFile "map.other").1 = false)) := by
  constructor
  · simp [ScriptedMapFormat.supportsFile, qEndsWith, h, JSValue.toString,
          isSuffixOf_iff_suffix_chars]
  · intro hc
    subst hc
    refine ⟨?_, ?_, ?_⟩ <;>
      simp only [ScriptedMapFormat.supportsFile, qEndsWith, h, JSValue.toString] <;>
      decide

/-- Witness for C8 at the sample descriptor with extension custom. -/
theorem supportsFile_dot_extension_suffix_instance :
    (sampleFormat.supportsFile "map.custom").1 = true ∧
    (sampleFormat.supportsFile "map.customx").1 = false ∧
    (sampleFormat.supportsFile "map.other").1 = false :=
  (supportsFile_dot_extension_suffix sampleFormat "x" "custom" rfl).2 rfl

/-- C9: read and write clear lastError as their first step, so their
behaviour never depends on a previously stored error string, while the
const queries capabilities, nameFilter and supportsFile leave the adapter
state untouched. -/
theorem lastError_reset_discipline (fmt : ScriptedMapFormat) (e : String)
    (call : CallOracle) (fileName p : String) (map : Map) (options : Int)
    (env : SaveEnv) (fs : FS) :
    (({ fmt with mError := e } : ScriptedMapFormat).read call fileName =
      ({ fmt with mError := "" } : ScriptedMapFormat).read call fileName) ∧
    (({ fmt with mError := e } : ScriptedMapFormat).write call map fileName options env fs =
      ({ fmt with mError := "" } : ScriptedMapFormat).write call map fileName options env fs) ∧
    (fmt.capabilities).2 = fmt ∧
    (fmt.nameFilter).2 = fmt ∧
    (fmt.supportsFile p).2 = fmt :=
  ⟨rfl, rfl, rfl, rfl, rfl⟩

/-- C10: validate checks the requirements in a fixed order, name first,
then extension, then the function properties, and raises only the error of
the first violated requirement. -/
theorem validate_first_violation_order (value : JSObject) :
    ((value.property "name").isString = false →
      validateMapFormatObject value = (false, some invalidNameMessage)) ∧
    ((value.property "name").isString = true →
      (value.property "extension").isString = false →
      validateMapFormatObject value = (false, some invalidExtensionMessage)) ∧
    ((value.property "name").isString = true →
      (value.property "extension").isString = true →
      (value.property "write").isCallable = false →
      (value.property "read").isCallable = false →
      validateMapFormatObject value = (false, some missingFunctionMessage)) := by
  refine ⟨?_, ?_, ?_⟩
  · intro h1
    simp [validateMapFormatObject, h1]
  · intro h1 h2
    simp [validateMapFormatObject, h1, h2]
  · intro h1 h2 h3 h4
    simp [validateMapFormatObject, h1, h2, h3, h4]

/-- Witness for C10 at a descriptor violating every requirement: only the
name error is raised. -/
theorem validate_first_violation_order_instance :
    validateMapFormatObject allBadDescriptor = (false, some invalidNameMessage) :=
  (validate_first_violation_order allBadDescriptor).1 rfl

end Tiled
